import Mathlib

/-!
Verification of the batch-download coordinator of the youtube-scraper
repository (src/youtube-scraper.py and src/simple-youtube-scraper.py).

The two scripts delegate the actual media fetch to the external yt_dlp
library; the repository-original logic embedded here is:
  * `download_video` (youtube-scraper.py:16-68): directory creation, then a
    try/except around the opaque download work, returning a
    (url, success, error_message) triple;
  * `read_urls_from_file` (youtube-scraper.py:71-103): line-level filtering
    of a URL list file;
  * `download_concurrently` (youtube-scraper.py:106-149): submission of one
    task per URL to a ThreadPoolExecutor and collection of the results in
    completion order via as_completed;
  * the command-line drivers `main` of both scripts, modelled as pure
    functions from inputs to an exit code and the reported result set.

The opaque per-task download work (the body of the YoutubeDL block) is a
parameter: a `TaskBehavior` records, for one task, whether the mkdir call
at youtube-scraper.py:31 raises, and whether the YoutubeDL work inside the
try block succeeds or raises with a message.  Thread-pool completion order
is a parameter `order` (the order in which as_completed yields futures); a
run of the real program corresponds to some permutation of the task
indices.  The in-flight bound of the executor is treated in a separate
small-step trace model (`PoolStep`), reflecting the documented FIFO
semantics of ThreadPoolExecutor.
-/

/-- Result of the opaque YoutubeDL work inside the try block of
download_video (youtube-scraper.py:50-62): either it completes, or it
raises an exception whose message is a string. -/
inductive DlResult where
  | ok : DlResult
  | err : String → DlResult
deriving DecidableEq, Repr

/-- Environment behaviour of one download task: whether the
Path(output_path).mkdir call at youtube-scraper.py:31 raises (it sits
outside the try/except), and what the YoutubeDL work inside the try block
does. -/
structure TaskBehavior where
  mkdirError : Option String
  result : DlResult
deriving DecidableEq, Repr

/-- Embeds download_video (youtube-scraper.py:16-68).  The mkdir at line 31
is outside the try block, so a filesystem error there escapes as an
uncaught exception (`Except.error`).  Any exception raised inside the try
block is caught at line 64 and turned into the normal return value
(url, False, error_msg); success returns (url, True, None) at line 62. -/
def download_video (b : TaskBehavior) (url : String) :
    Except String (String × Bool × Option String) :=
  match b.mkdirError with
  | some e => .error e
  | none =>
    match b.result with
    | .ok => .ok (url, true, none)
    | .err m => .ok (url, false, some m)

/-- The result-collection loop of download_concurrently
(youtube-scraper.py:141-147): futures are consumed in completion order;
each yields (url, success, error_msg) via future.result(); successes
append url to successful_downloads, failures append (url, error_msg) to
failed_downloads.  If future.result() re-raises an exception that escaped
download_video, the loop itself raises, modelled as `Except.error`. -/
def collect_results (beh : Nat → TaskBehavior) (urls : List String) :
    List Nat → List String → List (String × Option String) →
    Except String (List String × List (String × Option String))
  | [], succ, fail => .ok (succ, fail)
  | i :: rest, succ, fail =>
    match download_video (beh i) (urls.getD i "") with
    | .error e => .error e
    | .ok (url, success, error_msg) =>
      if success then
        collect_results beh urls rest (succ ++ [url]) fail
      else
        collect_results beh urls rest succ (fail ++ [(url, error_msg)])

/-- Embeds download_concurrently (youtube-scraper.py:106-149).  One task
per URL is submitted to the pool in list order (lines 130-139); outcomes
are collected in completion order `order` (a permutation of the task
indices in any real run).  ThreadPoolExecutor(max_workers) itself raises
ValueError when max_workers <= 0 (line 128). -/
def download_concurrently (beh : Nat → TaskBehavior) (urls : List String)
    (max_workers : Int) (order : List Nat) :
    Except String (List String × List (String × Option String)) :=
  if max_workers ≤ 0 then
    .error "ValueError: max_workers must be greater than 0"
  else
    collect_results beh urls order [] []

/-- The url appended to successful_downloads for task i, when that task
succeeds; none when it fails. -/
def succ_pick (beh : Nat → TaskBehavior) (urls : List String) (i : Nat) :
    Option String :=
  match (beh i).result with
  | .ok => some (urls.getD i "")
  | .err _ => none

/-- The (url, error_msg) pair appended to failed_downloads for task i,
when that task fails; none when it succeeds. -/
def fail_pick (beh : Nat → TaskBehavior) (urls : List String) (i : Nat) :
    Option (String × Option String) :=
  match (beh i).result with
  | .ok => none
  | .err m => some (urls.getD i "", some m)

/-- The whitespace characters removed by the Python str.strip() call at
youtube-scraper.py:86 (ASCII whitespace). -/
def is_py_space (c : Char) : Bool :=
  c = ' ' || c = '\t' || c = '\n' || c = '\x0d' || c = '\x0b' || c = '\x0c'

/-- Python str.strip(): removes leading and trailing whitespace. -/
def py_strip (s : String) : String :=
  String.mk (((s.toList.dropWhile is_py_space).reverse.dropWhile
    is_py_space).reverse)

/-- Python str.startswith(p): the characters of p head the string. -/
def starts_with (s p : String) : Bool :=
  p.toList.isPrefixOf s.toList

/-- The allow-list check of youtube-scraper.py:91: the stripped line must
start with one of the three accepted host forms. -/
def is_youtube_url (line : String) : Bool :=
  starts_with line "https://www.youtube.com/" ||
  starts_with line "https://youtu.be/" ||
  starts_with line "https://youtube.com/"

/-- One iteration of the loop of read_urls_from_file
(youtube-scraper.py:85-94) on the stripped line: skip if empty or a
comment, accept if the allow-list check passes, otherwise warn. -/
inductive LineAction where
  | skip : LineAction
  | accept : LineAction
  | warn : LineAction
deriving DecidableEq, Repr

/-- The skip test of youtube-scraper.py:88: the stripped line is empty or
is a comment. -/
def skipped_line (line : String) : Bool :=
  line.toList.isEmpty || starts_with line "#"

/-- Classifies one raw line exactly as the loop body of
read_urls_from_file does after line.strip(). -/
def classify_line (raw : String) : LineAction :=
  let line := py_strip raw
  if skipped_line line then .skip
  else if is_youtube_url line then .accept
  else .warn

/-- The line loop of read_urls_from_file (youtube-scraper.py:85-94),
carrying the 1-based line number: returns the accepted urls in file order
together with the warnings, each warning being the line number and the
stripped offending line (youtube-scraper.py:94). -/
def read_urls_loop : Nat → List String → List String × List (Nat × String)
  | _, [] => ([], [])
  | line_num, raw :: rest =>
    let r := read_urls_loop (line_num + 1) rest
    match classify_line raw with
    | .skip => r
    | .accept => (py_strip raw :: r.1, r.2)
    | .warn => (r.1, (line_num, py_strip raw) :: r.2)

/-- Embeds read_urls_from_file (youtube-scraper.py:71-103) on the list of
raw lines of the file: the loop starts with line_num = 1
(enumerate(file, 1)). -/
def read_urls_from_file (lines : List String) :
    List String × List (Nat × String) :=
  read_urls_loop 1 lines

example :
    read_urls_from_file
      ["https://www.youtube.com/watch?v=A", "# comment", "", "not-a-url",
       "https://youtu.be/B"] =
    (["https://www.youtube.com/watch?v=A", "https://youtu.be/B"],
     [(4, "not-a-url")]) := by decide

/-- Result of one run of a script main, as far as the spec observes it:
the process exit status, the reported result set of the batch (empty when
no batch ran), and whether the out-of-range workers warning of
youtube-scraper.py:219 was printed. -/
structure RunReport where
  exitCode : Nat
  successes : List String
  failures : List (String × Option String)
  warnedWorkers : Bool
deriving DecidableEq, Repr

/-- The argparse default for the workers option
(youtube-scraper.py:190-195). -/
def workers_default : Int := 10

/-- The clamp of youtube-scraper.py:218-220: a workers count outside
[1, 20] is replaced by 10 (with a warning); an in-range count is used as
given. -/
def effective_workers (w : Int) : Int :=
  if w < 1 || w > 20 then 10 else w

/-- Embeds main of youtube-scraper.py:152-246 after argument parsing.
`file` is none when the URL file does not exist (read_urls_from_file then
calls sys.exit(1), line 98), otherwise the list of its lines.  With no
valid URLs, main prints a message and exits 1 (lines 206-208).  With
--list-urls, main returns after printing, exit 0 (lines 212-216).
Otherwise the workers count is clamped (lines 218-220), the batch runs,
and main exits 1 exactly when failed_downloads is non-empty (lines
245-246), 0 otherwise; an exception escaping download_concurrently is an
uncaught Python exception, exit status 1. -/
def batch_main (file : Option (List String)) (list_urls : Bool)
    (workers : Int) (beh : Nat → TaskBehavior) (order : List Nat) :
    RunReport :=
  match file with
  | none => ⟨1, [], [], false⟩
  | some lines =>
    let urls := (read_urls_from_file lines).1
    if urls.isEmpty then ⟨1, [], [], false⟩
    else if list_urls then ⟨0, [], [], false⟩
    else
      let warned := workers < 1 || workers > 20
      match download_concurrently beh urls (effective_workers workers) order with
      | .error _ => ⟨1, [], [], warned⟩
      | .ok (s, f) => ⟨if f.isEmpty then 0 else 1, s, f, warned⟩

/-- Embeds download_video of simple-youtube-scraper.py:13-59: the mkdir at
line 24 is outside the try block; an exception inside the try returns
False (line 57), otherwise True (line 59). -/
def simple_download_video (b : TaskBehavior) : Except String Bool :=
  match b.mkdirError with
  | some e => .error e
  | none =>
    match b.result with
    | .ok => .ok true
    | .err _ => .ok false

/-- Embeds main of simple-youtube-scraper.py:62-146 after argument
parsing.  A URL failing the prefix check exits 1 (lines 108-110).  With
--list-formats, main exits 1 when listing raises (line 134) and returns
normally (exit 0) otherwise (line 136); `list_formats_error` is the
exception message, if any.  Otherwise download_video runs and main exits 1
exactly when it returns False (lines 145-146); an exception escaping
download_video is an uncaught Python exception, exit status 1. -/
def simple_main (url : String) (list_formats : Bool)
    (list_formats_error : Option String) (b : TaskBehavior) : Nat :=
  if !is_youtube_url url then 1
  else if list_formats then
    match list_formats_error with
    | some _ => 1
    | none => 0
  else
    match simple_download_video b with
    | .error _ => 1
    | .ok true => 0
    | .ok false => 1

/-- Models the Python pathlib call Path(output_path).mkdir(parents=True,
exist_ok=True) of youtube-scraper.py:31 and simple-youtube-scraper.py:24
over an abstract filesystem, the set of existing directory paths (paths
are treated atomically; parent creation is inside the abstraction).  With
exist_ok=True an existing path is not an error; with exist_ok=False it
raises FileExistsError.  Environment failures such as permission errors
are modelled separately by TaskBehavior.mkdirError. -/
def path_mkdir (fs : List String) (path : String) (exist_ok : Bool) :
    Except String (List String) :=
  if path ∈ fs then
    if exist_ok then .ok fs else .error "FileExistsError"
  else .ok (path :: fs)

/-- State of the worker pool: task indices not yet dispatched (in
submission order), tasks dispatched and not yet finished, and tasks
finished (in completion order). -/
structure PoolState where
  pending : List Nat
  inFlight : List Nat
  completed : List Nat
deriving DecidableEq, Repr

/-- Small-step trace model of the ThreadPoolExecutor(max_workers=W) used
at youtube-scraper.py:128, reflecting its documented FIFO semantics: a
pending task may start only when fewer than W tasks are in flight, and
the task started is always the oldest pending one (the submission loop at
lines 130-139 submits task i for urls[i] in list order); an in-flight task
may finish at any time, in any order. -/
inductive PoolStep (W : Nat) : PoolState → PoolState → Prop where
  | dispatch (i : Nat) (rest fl done : List Nat) (h : fl.length < W) :
      PoolStep W ⟨i :: rest, fl, done⟩ ⟨rest, fl ++ [i], done⟩
  | finish (pend fl done : List Nat) (i : Nat) (h : i ∈ fl) :
      PoolStep W ⟨pend, fl, done⟩ ⟨pend, fl.erase i, done ++ [i]⟩

/-- Initial pool state for a batch of n tasks: all of them pending in
submission order, none dispatched. -/
def initPool (n : Nat) : PoolState :=
  ⟨List.range n, [], []⟩

/-- The pool states reachable during a batch of n tasks under concurrency
bound W. -/
inductive PoolReachable (W n : Nat) : PoolState → Prop where
  | init : PoolReachable W n (initPool n)
  | step {s t : PoolState} :
      PoolReachable W n s → PoolStep W s t → PoolReachable W n t

/-! ## Helper lemmas about the collection loop -/

theorem collect_results_ok (beh : Nat → TaskBehavior) (urls : List String)
    (order : List Nat) (hmk : ∀ i ∈ order, (beh i).mkdirError = none)
    (sacc : List String) (facc : List (String × Option String)) :
    collect_results beh urls order sacc facc =
      .ok (sacc ++ order.filterMap (succ_pick beh urls),
           facc ++ order.filterMap (fail_pick beh urls)) := by
  induction order generalizing sacc facc with
  | nil => simp [collect_results]
  | cons i rest ih =>
    have hmi : (beh i).mkdirError = none := hmk i (by simp)
    have hrest : ∀ j ∈ rest, (beh j).mkdirError = none :=
      fun j hj => hmk j (by simp [hj])
    cases hr : (beh i).result with
    | ok =>
      rw [collect_results, download_video, hmi]
      simp only [hr, List.filterMap_cons, succ_pick, fail_pick,
        if_pos rfl]
      rw [ih hrest]
      simp
    | err m =>
      rw [collect_results, download_video, hmi]
      simp only [hr, List.filterMap_cons, succ_pick, fail_pick]
      rw [if_neg (by simp), ih hrest]
      simp

theorem filterMap_picks_length (beh : Nat → TaskBehavior)
    (urls : List String) (order : List Nat) :
    (order.filterMap (succ_pick beh urls)).length +
      (order.filterMap (fail_pick beh urls)).length = order.length := by
  induction order with
  | nil => simp
  | cons i rest ih =>
    cases hr : (beh i).result <;>
      simp [succ_pick, fail_pick, hr, List.filterMap_cons] <;> omega

theorem collect_results_error (beh : Nat → TaskBehavior)
    (urls : List String) (i : Nat) (e : String) (o2 : List Nat)
    (hi : (beh i).mkdirError = some e) :
    ∀ o1 : List Nat, (∀ j ∈ o1, (beh j).mkdirError = none) →
    ∀ sacc facc, collect_results beh urls (o1 ++ i :: o2) sacc facc =
      .error e := by
  intro o1
  induction o1 with
  | nil =>
    intro _ sacc facc
    rw [List.nil_append, collect_results, download_video, hi]
  | cons j o1t ih =>
    intro hmk sacc facc
    have hmj : (beh j).mkdirError = none := hmk j (by simp)
    have ht : ∀ k ∈ o1t, (beh k).mkdirError = none :=
      fun k hk => hmk k (by simp [hk])
    rw [List.cons_append, collect_results, download_video, hmj]
    cases hr : (beh j).result with
    | ok => exact ih ht _ _
    | err m => exact ih ht _ _

theorem filterMap_picks_count (beh : Nat → TaskBehavior)
    (urls : List String) (u : String) (order : List Nat) :
    (order.filterMap (succ_pick beh urls)).count u +
      (order.filterMap (fail_pick beh urls)).countP (fun p => p.1 == u) =
      order.countP (fun i => urls.getD i "" == u) := by
  induction order with
  | nil => simp
  | cons i rest ih =>
    cases hr : (beh i).result <;>
      simp only [succ_pick, fail_pick, hr, List.filterMap_cons,
        List.count_cons, List.countP_cons] <;> split <;> omega

theorem count_range_getD (l : List String) (u : String) :
    (List.range l.length).countP (fun i => l.getD i "" == u) = l.count u := by
  induction l with
  | nil => simp
  | cons a t ih =>
    rw [List.length_cons, List.range_succ_eq_map, List.countP_cons,
      List.countP_map]
    simp only [Function.comp_def, List.getD_cons_succ, List.getD_cons_zero,
      List.count_cons, ih]

/-! ## Helper lemmas about the URL-list reader -/

theorem read_urls_loop_fst (lines : List String) :
    ∀ k, (read_urls_loop k lines).1 =
      (lines.map py_strip).filter
        (fun l => !skipped_line l && is_youtube_url l) := by
  induction lines with
  | nil => intro k; simp [read_urls_loop]
  | cons raw rest ih =>
    intro k
    by_cases h1 : skipped_line (py_strip raw) <;>
      by_cases h2 : is_youtube_url (py_strip raw) <;>
        simp [read_urls_loop, classify_line, h1, h2, ih]

theorem read_urls_loop_snd_length (lines : List String) :
    ∀ k, (read_urls_loop k lines).2.length =
      ((lines.map py_strip).filter
        (fun l => !skipped_line l && !is_youtube_url l)).length := by
  induction lines with
  | nil => intro k; simp [read_urls_loop]
  | cons raw rest ih =>
    intro k
    by_cases h1 : skipped_line (py_strip raw) <;>
      by_cases h2 : is_youtube_url (py_strip raw) <;>
        simp [read_urls_loop, classify_line, h1, h2, ih]

theorem read_urls_loop_snd_mem (lines : List String) :
    ∀ k, ∀ p ∈ (read_urls_loop k lines).2,
      skipped_line p.2 = false ∧ is_youtube_url p.2 = false := by
  induction lines with
  | nil => intro k p hp; simp [read_urls_loop] at hp
  | cons raw rest ih =>
    intro k p hp
    by_cases h1 : skipped_line (py_strip raw) <;>
      by_cases h2 : is_youtube_url (py_strip raw) <;>
        simp [read_urls_loop, classify_line, h1, h2] at hp
    · exact ih (k + 1) p hp
    · exact ih (k + 1) p hp
    · exact ih (k + 1) p hp
    · rcases hp with hp | hp
      · rw [hp]
        exact ⟨by simpa using h1, by simpa using h2⟩
      · exact ih (k + 1) p hp

/-- C4: read_urls_from_file skips empty and comment lines, accepts (in
file order) exactly the stripped lines that pass the allow-list prefix
check, warns on every other line (as many warnings as rejected non-empty
non-comment lines, each warning carrying such a line), and on the spec's
example file returns exactly the two YouTube URLs with one warning, for
line 4, "not-a-url". -/
theorem c4_read_urls (lines : List String) :
    (read_urls_from_file lines).1 =
      (lines.map py_strip).filter
        (fun l => !skipped_line l && is_youtube_url l) ∧
    (read_urls_from_file lines).2.length =
      ((lines.map py_strip).filter
        (fun l => !skipped_line l && !is_youtube_url l)).length ∧
    (∀ p ∈ (read_urls_from_file lines).2,
      skipped_line p.2 = false ∧ is_youtube_url p.2 = false) ∧
    read_urls_from_file
      ["https://www.youtube.com/watch?v=A", "# comment", "", "not-a-url",
       "https://youtu.be/B"] =
      (["https://www.youtube.com/watch?v=A", "https://youtu.be/B"],
       [(4, "not-a-url")]) :=
  ⟨read_urls_loop_fst lines 1, read_urls_loop_snd_length lines 1,
   read_urls_loop_snd_mem lines 1, by decide⟩

/-! ## The frozen claims about the coordinator -/

/-- C1: for every non-empty list of URLs of length N, every concurrency
bound W >= 1, every completion order (a permutation of the task indices),
and every run in which no task raises outside its try block,
download_concurrently returns exactly one outcome per submitted request:
the successes are exactly the urls of the succeeding tasks and the
failures exactly the (url, error) pairs of the failing tasks, each in
completion order with no loss, duplication or overlap, so
len(successful_downloads) + len(failed_downloads) = N. -/
theorem c1_outcome_partition (beh : Nat → TaskBehavior) (urls : List String)
    (W : Int) (order : List Nat) (hne : urls ≠ []) (hW : 1 ≤ W)
    (horder : order.Perm (List.range urls.length))
    (hmk : ∀ i ∈ order, (beh i).mkdirError = none) :
    download_concurrently beh urls W order =
      .ok (order.filterMap (succ_pick beh urls),
           order.filterMap (fail_pick beh urls)) ∧
    (order.filterMap (succ_pick beh urls)).length +
      (order.filterMap (fail_pick beh urls)).length = urls.length := by
  refine ⟨?_, ?_⟩
  · rw [download_concurrently, if_neg (by omega),
      collect_results_ok beh urls order hmk]
    simp
  · rw [filterMap_picks_length, horder.length_eq, List.length_range]

def c1beh : Nat → TaskBehavior := fun i =>
  if i = 0 then ⟨none, .ok⟩ else ⟨none, .err "HTTP Error 404: Not Found"⟩

theorem c1_outcome_partition_witness :
    (["https://youtu.be/a", "https://youtu.be/b"] : List String) ≠ [] ∧
    (1 : Int) ≤ 2 ∧
    ([1, 0] : List Nat).Perm
      (List.range (["https://youtu.be/a", "https://youtu.be/b"] :
        List String).length) ∧
    (∀ i ∈ ([1, 0] : List Nat), (c1beh i).mkdirError = none) ∧
    (download_concurrently c1beh ["https://youtu.be/a", "https://youtu.be/b"]
        2 [1, 0] =
      .ok (([1, 0] : List Nat).filterMap
             (succ_pick c1beh ["https://youtu.be/a", "https://youtu.be/b"]),
           ([1, 0] : List Nat).filterMap
             (fail_pick c1beh ["https://youtu.be/a", "https://youtu.be/b"])) ∧
     (([1, 0] : List Nat).filterMap
        (succ_pick c1beh ["https://youtu.be/a", "https://youtu.be/b"])).length +
       (([1, 0] : List Nat).filterMap
        (fail_pick c1beh ["https://youtu.be/a", "https://youtu.be/b"])).length =
       (["https://youtu.be/a", "https://youtu.be/b"] : List String).length) :=
  ⟨by decide, by decide, by decide, by decide,
   c1_outcome_partition c1beh ["https://youtu.be/a", "https://youtu.be/b"]
     2 [1, 0] (by decide) (by decide) (by decide) (by decide)⟩

/-- C2: a task whose download operation raises is recorded as an outcome
with success=false carrying the error string, the coordinator returns
normally rather than raising, and every other task in the batch still
reports its outcome (the outcome counts still sum to N). -/
theorem c2_failure_isolated (beh : Nat → TaskBehavior) (urls : List String)
    (W : Int) (order : List Nat) (j : Nat) (m : String) (hW : 1 ≤ W)
    (horder : order.Perm (List.range urls.length))
    (hmk : ∀ i ∈ order, (beh i).mkdirError = none)
    (hj : j < urls.length) (hfail : (beh j).result = .err m) :
    ∃ s f, download_concurrently beh urls W order = .ok (s, f) ∧
      (urls.getD j "", some m) ∈ f ∧
      s.length + f.length = urls.length := by
  refine ⟨order.filterMap (succ_pick beh urls),
    order.filterMap (fail_pick beh urls), ?_, ?_, ?_⟩
  · rw [download_concurrently, if_neg (by omega),
      collect_results_ok beh urls order hmk]
    simp
  · exact List.mem_filterMap.2
      ⟨j, horder.mem_iff.2 (List.mem_range.2 hj), by simp [fail_pick, hfail]⟩
  · rw [filterMap_picks_length, horder.length_eq, List.length_range]

def c2beh : Nat → TaskBehavior := fun i =>
  if i = 1 then ⟨none, .err "Video unavailable"⟩ else ⟨none, .ok⟩

theorem c2_failure_isolated_witness :
    (1 : Int) ≤ 3 ∧
    ([2, 0, 1] : List Nat).Perm
      (List.range (["https://youtu.be/1", "https://youtu.be/2",
        "https://youtu.be/3"] : List String).length) ∧
    (∀ i ∈ ([2, 0, 1] : List Nat), (c2beh i).mkdirError = none) ∧
    1 < (["https://youtu.be/1", "https://youtu.be/2",
      "https://youtu.be/3"] : List String).length ∧
    (c2beh 1).result = .err "Video unavailable" ∧
    (∃ s f, download_concurrently c2beh
        ["https://youtu.be/1", "https://youtu.be/2", "https://youtu.be/3"]
        3 [2, 0, 1] = .ok (s, f) ∧
      ((["https://youtu.be/1", "https://youtu.be/2",
          "https://youtu.be/3"] : List String).getD 1 "",
        some "Video unavailable") ∈ f ∧
      s.length + f.length = (["https://youtu.be/1", "https://youtu.be/2",
        "https://youtu.be/3"] : List String).length) :=
  ⟨by decide, by decide, by decide, by decide, by decide,
   c2_failure_isolated c2beh
     ["https://youtu.be/1", "https://youtu.be/2", "https://youtu.be/3"]
     3 [2, 0, 1] 1 "Video unavailable" (by decide) (by decide) (by decide)
     (by decide) (by decide)⟩

/-- C10: duplicate URLs are not de-duplicated: for every URL u, the
number of outcomes reported for u (successes plus failures) equals the
number of occurrences of u in the input list, one outcome per
occurrence. -/
theorem c10_no_dedup (beh : Nat → TaskBehavior) (urls : List String)
    (W : Int) (order : List Nat) (u : String) (hW : 1 ≤ W)
    (horder : order.Perm (List.range urls.length))
    (hmk : ∀ i ∈ order, (beh i).mkdirError = none) :
    ∃ s f, download_concurrently beh urls W order = .ok (s, f) ∧
      s.count u + f.countP (fun p => p.1 == u) = urls.count u := by
  refine ⟨order.filterMap (succ_pick beh urls),
    order.filterMap (fail_pick beh urls), ?_, ?_⟩
  · rw [download_concurrently, if_neg (by omega),
      collect_results_ok beh urls order hmk]
    simp
  · rw [filterMap_picks_count, horder.countP_eq, count_range_getD]

def c10beh : Nat → TaskBehavior := fun _ => ⟨none, .ok⟩

theorem c10_no_dedup_witness :
    (1 : Int) ≤ 1 ∧
    ([0, 1] : List Nat).Perm
      (List.range (["https://youtu.be/x", "https://youtu.be/x"] :
        List String).length) ∧
    (∀ i ∈ ([0, 1] : List Nat), (c10beh i).mkdirError = none) ∧
    (∃ s f, download_concurrently c10beh
        ["https://youtu.be/x", "https://youtu.be/x"] 1 [0, 1] = .ok (s, f) ∧
      s.count "https://youtu.be/x" +
        f.countP (fun p => p.1 == "https://youtu.be/x") =
        (["https://youtu.be/x", "https://youtu.be/x"] :
          List String).count "https://youtu.be/x") :=
  ⟨by decide, by decide, by decide,
   c10_no_dedup c10beh ["https://youtu.be/x", "https://youtu.be/x"]
     1 [0, 1] "https://youtu.be/x" (by decide) (by decide) (by decide)⟩

/-- C3: in the FIFO trace model of the executor, for every concurrency
bound W in [1,20] and every batch size n, every reachable pool state has
at most W tasks in flight, and the not-yet-dispatched tasks always form a
suffix of the submission order — so requests are dispatched in submission
order as slots free up, while completion order is unconstrained. -/
theorem c3_bounded_fifo (W n : Nat) (s : PoolState) (hW1 : 1 ≤ W)
    (hW2 : W ≤ 20) (hs : PoolReachable W n s) :
    s.inFlight.length ≤ W ∧ s.pending <:+ List.range n := by
  induction hs with
  | init => exact ⟨by simp [initPool], List.suffix_refl _⟩
  | step hreach hstep ih =>
    cases hstep with
    | dispatch i rest fl done h =>
      refine ⟨?_, (List.suffix_cons i rest).trans ih.2⟩
      simpa using h
    | finish pend fl done i h =>
      exact ⟨le_trans (List.erase_sublist i fl).length_le ih.1, ih.2⟩

theorem c3_bounded_fifo_witness :
    1 ≤ 1 ∧ (1 : Nat) ≤ 20 ∧
    ((⟨[1], [0], []⟩ : PoolState).inFlight.length ≤ 1 ∧
      (⟨[1], [0], []⟩ : PoolState).pending <:+ List.range 2) :=
  ⟨Nat.le_refl 1, by decide,
   c3_bounded_fifo 1 2 ⟨[1], [0], []⟩ (Nat.le_refl 1) (by decide)
     (PoolReachable.step PoolReachable.init
       (PoolStep.dispatch 0 [1] [] [] (by decide)))⟩

/-- C9: the directory creation performed before each download,
Path(output_path).mkdir(..., exist_ok=True), is idempotent: it succeeds
on any filesystem, and invoking it again when the destination directory
already exists succeeds again without a FileExistsError, leaving the
filesystem unchanged. -/
theorem c9_mkdir_idempotent (fs : List String) (path : String) :
    ∃ fs2, path_mkdir fs path true = .ok fs2 ∧
      path_mkdir fs2 path true = .ok fs2 := by
  by_cases h : path ∈ fs
  · exact ⟨fs, by simp [path_mkdir, h], by simp [path_mkdir, h]⟩
  · exact ⟨path :: fs, by simp [path_mkdir, h], by simp [path_mkdir]⟩

/-! ## Helper lemmas about the workers clamp -/

theorem effective_workers_out_of_range (w : Int) (hw : w ≤ 0 ∨ 20 < w) :
    effective_workers w = 10 := by
  unfold effective_workers
  rw [if_pos]
  rcases hw with h | h <;> simp <;> omega

theorem effective_workers_in_range (w : Int) (h1 : 1 ≤ w) (h2 : w ≤ 20) :
    effective_workers w = w := by
  unfold effective_workers
  rw [if_neg]
  simp
  omega

theorem effective_workers_pos (w : Int) : 1 ≤ effective_workers w := by
  unfold effective_workers
  split
  · omega
  · next h => simp at h; omega

/-- C7: a supplied workers count W <= 0 or W > 20 is clamped to the
default 10 with a warning; the argparse default is 10; any W in [1,20] is
used as given; and an out-of-range W never crashes or rejects the run:
the batch proceeds and reports exactly what it would report with the
default bound, with the warning flag set. -/
theorem c7_workers_clamped :
    (∀ w : Int, w ≤ 0 ∨ 20 < w → effective_workers w = 10) ∧
    workers_default = 10 ∧
    (∀ w : Int, 1 ≤ w → w ≤ 20 → effective_workers w = w) ∧
    (∀ w : Int, w ≤ 0 ∨ 20 < w →
      ∀ (lines : List String) (beh : Nat → TaskBehavior) (order : List Nat),
        (batch_main (some lines) false w beh order).exitCode =
          (batch_main (some lines) false workers_default beh order).exitCode ∧
        (batch_main (some lines) false w beh order).successes =
          (batch_main (some lines) false workers_default beh order).successes ∧
        (batch_main (some lines) false w beh order).failures =
          (batch_main (some lines) false workers_default beh order).failures ∧
        ((read_urls_from_file lines).1 ≠ [] →
          (batch_main (some lines) false w beh order).warnedWorkers = true)) := by
  refine ⟨effective_workers_out_of_range, rfl, effective_workers_in_range, ?_⟩
  intro w hw lines beh order
  have he : effective_workers w = 10 := effective_workers_out_of_range w hw
  have hd : effective_workers workers_default = 10 := rfl
  by_cases hu : (read_urls_from_file lines).1.isEmpty
  · simp [batch_main, hu]
    exact List.isEmpty_iff.mp hu
  · have hwarn : (decide (w < 1) || decide (w > 20)) = true := by
      rcases hw with h | h <;> simp <;> omega
    simp only [batch_main, hu, Bool.false_eq_true, if_false, he, hd, hwarn]
    cases hdc : download_concurrently beh (read_urls_from_file lines).1 10 order with
    | error e => simp [hdc]
    | ok p => simp [hdc]

theorem c7_workers_clamped_witness :
    effective_workers 0 = 10 ∧ effective_workers 25 = 10 ∧
    workers_default = 10 ∧ effective_workers 7 = 7 ∧
    (batch_main (some ["https://youtu.be/a"]) false 25
        (fun _ => ⟨none, .ok⟩) [0]).exitCode =
      (batch_main (some ["https://youtu.be/a"]) false workers_default
        (fun _ => ⟨none, .ok⟩) [0]).exitCode ∧
    (batch_main (some ["https://youtu.be/a"]) false 25
        (fun _ => ⟨none, .ok⟩) [0]).warnedWorkers = true :=
  ⟨c7_workers_clamped.1 0 (Or.inl (by decide)),
   c7_workers_clamped.1 25 (Or.inr (by decide)),
   c7_workers_clamped.2.1,
   c7_workers_clamped.2.2.1 7 (by decide) (by decide),
   (c7_workers_clamped.2.2.2 25 (Or.inr (by decide)) ["https://youtu.be/a"]
     (fun _ => ⟨none, .ok⟩) [0]).1,
   (c7_workers_clamped.2.2.2 25 (Or.inr (by decide)) ["https://youtu.be/a"]
     (fun _ => ⟨none, .ok⟩) [0]).2.2.2 (by decide)⟩

/-- C5 fails as stated: a run of the batch script on a URL file containing
only a comment line exits with status 1 although no download failure
occurred — no download was even attempted and the result set is empty
(main exits 1 at youtube-scraper.py:208 when no valid URL is found). -/
theorem c5_counterexample :
    batch_main (some ["# playlist"]) false 10 (fun _ => ⟨none, .ok⟩) [] =
      ⟨1, [], [], false⟩ := by decide

/-- C5 amended: for runs that reach the download phase the claim holds:
after a batch (some valid URLs, no --list-urls, no task raising outside
its try block) the batch script exits non-zero exactly when
failed_downloads is non-empty, and the single-URL script, when its URL
passes validation and the download runs, exits non-zero exactly when that
download fails.  Runs that abort before any download (missing file, no
valid URLs, invalid URL argument) also exit non-zero even though no
download failure occurred. -/
theorem c5_exit_status (lines : List String) (w : Int)
    (beh : Nat → TaskBehavior) (order : List Nat) (url : String)
    (b : TaskBehavior)
    (hne : (read_urls_from_file lines).1 ≠ [])
    (horder : order.Perm (List.range (read_urls_from_file lines).1.length))
    (hmk : ∀ i ∈ order, (beh i).mkdirError = none)
    (hurl : is_youtube_url url = true) (hb : b.mkdirError = none) :
    ((batch_main (some lines) false w beh order).exitCode ≠ 0 ↔
      (batch_main (some lines) false w beh order).failures ≠ []) ∧
    (simple_main url false none b ≠ 0 ↔ b.result ≠ .ok) := by
  constructor
  · have hu : (read_urls_from_file lines).1.isEmpty = false := by
      simpa [List.isEmpty_iff] using hne
    have hpos : ¬ (effective_workers w ≤ 0) := by
      have := effective_workers_pos w
      omega
    simp only [batch_main, hu, Bool.false_eq_true, if_false]
    rw [download_concurrently, if_neg hpos,
      collect_results_ok beh (read_urls_from_file lines).1 order hmk]
    simp only [List.nil_append]
    by_cases hf :
        (order.filterMap (fail_pick beh (read_urls_from_file lines).1)).isEmpty
    · simp [hf, List.isEmpty_iff.mp hf]
    · simp only [hf, Bool.false_eq_true, if_false]
      constructor
      · intro _
        intro hcon
        rw [hcon] at hf
        simp at hf
      · intro _
        decide
  · rw [simple_main, if_neg (by simp [hurl]), simple_download_video, hb]
    cases hr : b.result with
    | ok => simp
    | err m => simp

def c5beh : Nat → TaskBehavior := fun _ => ⟨none, .ok⟩

theorem c5_exit_status_witness :
    (read_urls_from_file ["https://youtu.be/a"]).1 ≠ [] ∧
    ([0] : List Nat).Perm
      (List.range (read_urls_from_file ["https://youtu.be/a"]).1.length) ∧
    (∀ i ∈ ([0] : List Nat), (c5beh i).mkdirError = none) ∧
    is_youtube_url "https://youtu.be/ok" = true ∧
    (TaskBehavior.mk none .ok).mkdirError = none ∧
    (((batch_main (some ["https://youtu.be/a"]) false 10 c5beh [0]).exitCode ≠ 0 ↔
       (batch_main (some ["https://youtu.be/a"]) false 10 c5beh [0]).failures ≠ []) ∧
     (simple_main "https://youtu.be/ok" false none ⟨none, .ok⟩ ≠ 0 ↔
       (TaskBehavior.mk none .ok).result ≠ .ok)) :=
  ⟨by decide, by decide, by decide, by decide, by decide,
   c5_exit_status ["https://youtu.be/a"] 10 c5beh [0] "https://youtu.be/ok"
     ⟨none, .ok⟩ (by decide) (by decide) (by decide) (by decide) (by decide)⟩

/-- C6 fails as stated: with an empty URL file (so an empty request
sequence) the batch script does not complete as a no-op success: it exits
with status 1 (after printing "No valid YouTube URLs found in the file.",
youtube-scraper.py:206-208), although no download was performed and no
download failed. -/
theorem c6_counterexample :
    batch_main (some []) false 10 (fun _ => ⟨none, .ok⟩) [] =
      ⟨1, [], [], false⟩ := by decide

/-- C6 amended: an empty request sequence performs no download and the
coordinator download_concurrently itself treats it as a no-op success
(returning the empty partition), but the batch script reports it as an
error: main exits with status 1 whenever the list of valid URLs is
empty. -/
theorem c6_empty_batch (beh : Nat → TaskBehavior) (w : Int) (hW : 1 ≤ w) :
    download_concurrently beh [] w [] = .ok ([], []) ∧
    (∀ lines, (read_urls_from_file lines).1 = [] →
      batch_main (some lines) false w beh [] = ⟨1, [], [], false⟩) := by
  constructor
  · rw [download_concurrently, if_neg (by omega)]
    rfl
  · intro lines h
    simp [batch_main, h]

theorem c6_empty_batch_witness :
    (1 : Int) ≤ 1 ∧
    (download_concurrently (fun _ => ⟨none, .ok⟩) [] 1 [] = .ok ([], []) ∧
     (∀ lines, (read_urls_from_file lines).1 = [] →
       batch_main (some lines) false 1 (fun _ => ⟨none, .ok⟩) [] =
         ⟨1, [], [], false⟩)) :=
  ⟨by decide, c6_empty_batch (fun _ => ⟨none, .ok⟩) 1 (by decide)⟩

/-- C8 fails as stated: in a batch of two tasks where the first completed
task cannot create its destination directory (the mkdir at
youtube-scraper.py:31 raises PermissionError, outside the try block),
download_concurrently does not record that task's failure and continue:
future.result() re-raises the exception at line 142, the collection
aborts, and no result set at all is returned — the second task's outcome
is lost, not just the failing task's. -/
theorem c8_counterexample :
    download_concurrently
      (fun i => if i = 0 then ⟨some "PermissionError", .ok⟩ else ⟨none, .ok⟩)
      ["https://youtu.be/a", "https://youtu.be/b"] 2 [0, 1] =
      .error "PermissionError" ∧
    ¬∃ s f, download_concurrently
      (fun i => if i = 0 then ⟨some "PermissionError", .ok⟩ else ⟨none, .ok⟩)
      ["https://youtu.be/a", "https://youtu.be/b"] 2 [0, 1] =
      .ok (s, f) := by
  constructor
  · rfl
  · intro hex
    obtain ⟨s, f, h⟩ := hex
    have h0 : download_concurrently
        (fun i => if i = 0 then ⟨some "PermissionError", .ok⟩ else ⟨none, .ok⟩)
        ["https://youtu.be/a", "https://youtu.be/b"] 2 [0, 1] =
        .error "PermissionError" := rfl
    rw [h0] at h
    exact Except.noConfusion h

/-- C8 amended: a filesystem error while preparing a task's destination
directory is raised outside the try block of download_video, so it is not
recorded as that task's failed outcome; instead it aborts the whole
batch: if the first task in completion order whose mkdir raises does so
with message e, download_concurrently propagates e and returns no result
set; only errors raised inside the download operation itself are confined
to the failing task. -/
theorem c8_mkdir_aborts_batch (beh : Nat → TaskBehavior)
    (urls : List String) (w : Int) (o1 o2 : List Nat) (i : Nat) (e : String)
    (hW : 1 ≤ w) (h1 : ∀ j ∈ o1, (beh j).mkdirError = none)
    (hi : (beh i).mkdirError = some e) :
    download_concurrently beh urls w (o1 ++ i :: o2) = .error e := by
  rw [download_concurrently, if_neg (by omega)]
  exact collect_results_error beh urls i e o2 hi o1 h1 [] []

def c8beh : Nat → TaskBehavior := fun i =>
  if i = 1 then ⟨some "PermissionError: /downloads", .ok⟩ else ⟨none, .ok⟩

theorem c8_mkdir_aborts_batch_witness :
    (1 : Int) ≤ 3 ∧
    (∀ j ∈ ([0] : List Nat), (c8beh j).mkdirError = none) ∧
    (c8beh 1).mkdirError = some "PermissionError: /downloads" ∧
    download_concurrently c8beh
      ["https://youtu.be/a", "https://youtu.be/b", "https://youtu.be/c"]
      3 ([0] ++ 1 :: [2]) = .error "PermissionError: /downloads" :=
  ⟨by decide, by decide, by decide,
   c8_mkdir_aborts_batch c8beh
     ["https://youtu.be/a", "https://youtu.be/b", "https://youtu.be/c"]
     3 [0] [2] 1 "PermissionError: /downloads" (by decide) (by decide)
     (by decide)⟩

theorem c4_read_urls_witness :
    ((4, "not-a-url") : Nat × String) ∈ (read_urls_from_file
      ["https://www.youtube.com/watch?v=A", "# comment", "", "not-a-url",
       "https://youtu.be/B"]).2 ∧
    skipped_line "not-a-url" = false ∧ is_youtube_url "not-a-url" = false :=
  ⟨by decide,
   (c4_read_urls
     ["https://www.youtube.com/watch?v=A", "# comment", "", "not-a-url",
      "https://youtu.be/B"]).2.2.1 (4, "not-a-url") (by decide)⟩
